import Mathlib

/-!
Shallow embedding of the `MockPageTable` component of the rCore memory crate
(`src/crate/memory/src/paging/mock_page_table.rs`), together with theorems
settling the specification claims about it.

Modelling conventions:
- `usize` values (virtual and physical addresses) are `Nat`.  The bit mask
  `target & !(PAGE_SIZE - 1)` applied to a `usize` rounds the value down to a
  multiple of `PAGE_SIZE`; it is embedded as `target / PAGE_SIZE * PAGE_SIZE`.
  The mask `addr & (PAGE_SIZE - 1)` is embedded as `addr % PAGE_SIZE`, and the
  bitwise or composing the physical address is kept as `Nat.lor`.
- A Rust panic (failed `assert!`, out-of-bounds array index, `unwrap` of
  `None`) is embedded as the `none` outcome of an `Option`-valued operation.
- The fixed array `entries: [MockEntry; PAGE_COUNT]` is embedded as a total
  function `Nat → MockEntry` whose meaningful domain is `[0, PAGE_COUNT)`;
  every operation performs the same bound check `addr / PAGE_SIZE < PAGE_COUNT`
  that the Rust array indexing performs, and answers `none` (panic) otherwise.
- `data: [u8; PAGE_SIZE * PAGE_COUNT]` is uninitialized at construction, so a
  table carries an arbitrary byte function `Nat → Nat`; `MockPageTable.new`
  takes the arbitrary initial content as a parameter.
- The boxed `FnMut(&mut MockPageTable, VirtAddr)` page-fault handler is a
  closure: code plus mutable captured state.  It is embedded as a pair
  `H × σ` stored in the table (`H` the closure code, `σ` its captured state)
  together with an interpretation `HandlerInterp H σ` giving the semantics of
  each code; the interpretation is a parameter of every operation that can
  dispatch a fault.  A handler returns `none` when its body panics.
- The `while` loops of `read`/`write` are embedded with explicit fuel;
  exhausted fuel yields `none`.  Every claim is settled with enough fuel,
  and no claim interprets fuel exhaustion as evidence.
-/

def PAGE_COUNT : Nat := 16

def PAGE_SIZE : Nat := 4096

structure MockEntry where
  target : Nat
  present : Bool
  writable : Bool
  accessed : Bool
  dirty : Bool
deriving Repr, DecidableEq

/-- `#[derive(Default)]`: all bits false, target 0. -/
def MockEntry.default : MockEntry :=
  { target := 0, present := false, writable := false, accessed := false, dirty := false }

structure MockPageTable (H σ : Type) where
  entries : Nat → MockEntry
  data : Nat → Nat
  page_fault_handler : Option (H × σ)

/-- Semantics of handler codes: given the code, its captured state, the table
(with the handler taken out) and the faulting address, produce the updated
captured state and table, or `none` if the handler body panics. -/
def HandlerInterp (H σ : Type) : Type :=
  H → σ → MockPageTable H σ → Nat → Option (σ × MockPageTable H σ)

namespace MockPageTable

variable {H σ : Type}

/-- Overwrite the entry at index `i` of the entry array. -/
def setEntry (pt : MockPageTable H σ) (i : Nat) (e : MockEntry) : MockPageTable H σ :=
  { pt with entries := fun j => if j = i then e else pt.entries j }

/-- `MockPageTable::new`: default entries, no handler, and uninitialized
backing memory, here an arbitrary byte function supplied by the caller. -/
def new (data0 : Nat → Nat) : MockPageTable H σ :=
  { entries := fun _ => MockEntry.default, data := data0, page_fault_handler := none }

/-- `MockPageTable::set_handler`. -/
def set_handler (pt : MockPageTable H σ) (h : H) (s : σ) : MockPageTable H σ :=
  { pt with page_fault_handler := some (h, s) }

/-- `PageTable::map` for `MockPageTable`: asserts the entry is not present,
marks it present and writable, stores the page-aligned target.  The Rust
function returns `&mut Self::Entry`; entry inspection afterwards goes through
`get_entry`, so the returned reference is not modelled separately. -/
def map (pt : MockPageTable H σ) (addr target : Nat) : Option (MockPageTable H σ) :=
  if addr / PAGE_SIZE < PAGE_COUNT then
    let e := pt.entries (addr / PAGE_SIZE)
    if e.present then none
    else some (pt.setEntry (addr / PAGE_SIZE)
      { e with present := true, writable := true, target := target / PAGE_SIZE * PAGE_SIZE })
  else none

/-- `PageTable::unmap` for `MockPageTable`: asserts the entry is present and
clears only the present bit. -/
def unmap (pt : MockPageTable H σ) (addr : Nat) : Option (MockPageTable H σ) :=
  if addr / PAGE_SIZE < PAGE_COUNT then
    let e := pt.entries (addr / PAGE_SIZE)
    if e.present then some (pt.setEntry (addr / PAGE_SIZE) { e with present := false })
    else none
  else none

/-- `PageTable::get_entry` for `MockPageTable` (read view of the slot). -/
def get_entry (pt : MockPageTable H σ) (addr : Nat) : Option MockEntry :=
  if addr / PAGE_SIZE < PAGE_COUNT then some (pt.entries (addr / PAGE_SIZE)) else none

/-- `MockPageTable::translate`: asserts the entry is present and composes
`(entry.target & !(PAGE_SIZE - 1)) | (addr & (PAGE_SIZE - 1))`. -/
def translate (pt : MockPageTable H σ) (addr : Nat) : Option Nat :=
  if addr / PAGE_SIZE < PAGE_COUNT then
    let e := pt.entries (addr / PAGE_SIZE)
    if e.present then
      some (Nat.lor (e.target / PAGE_SIZE * PAGE_SIZE) (addr % PAGE_SIZE))
    else none
  else none

/-- `MockPageTable::trigger_page_fault`: takes the handler out of the table
(`unwrap` panics if absent), invokes it on the handler-less table, then
reinstalls it with its updated captured state. -/
def trigger_page_fault (interp : HandlerInterp H σ) (pt : MockPageTable H σ)
    (addr : Nat) : Option (MockPageTable H σ) :=
  match pt.page_fault_handler with
  | none => none
  | some (h, s) =>
    match interp h s { pt with page_fault_handler := none } addr with
    | none => none
    | some (s', pt') => some { pt' with page_fault_handler := some (h, s') }

/-- `MockPageTable::read`: loop while not present, dispatching a page fault
each iteration; once present, set `accessed` and return the byte at the
translated physical address (asserting it is inside the backing store). -/
def read (interp : HandlerInterp H σ) :
    Nat → MockPageTable H σ → Nat → Option (Nat × MockPageTable H σ)
  | 0, _, _ => none
  | fuel + 1, pt, addr =>
    if addr / PAGE_SIZE < PAGE_COUNT then
      if (pt.entries (addr / PAGE_SIZE)).present then
        let pt1 := pt.setEntry (addr / PAGE_SIZE)
          { pt.entries (addr / PAGE_SIZE) with accessed := true }
        match pt1.translate addr with
        | none => none
        | some pa =>
          if pa < PAGE_SIZE * PAGE_COUNT then some (pt1.data pa, pt1) else none
      else
        match trigger_page_fault interp pt addr with
        | none => none
        | some pt' => read interp fuel pt' addr
    else none

/-- `MockPageTable::write`: loop while not (present and writable), dispatching
a page fault each iteration; once present and writable, set `accessed` and
`dirty` and store the byte at the translated physical address. -/
def write (interp : HandlerInterp H σ) :
    Nat → MockPageTable H σ → Nat → Nat → Option (MockPageTable H σ)
  | 0, _, _, _ => none
  | fuel + 1, pt, addr, b =>
    if addr / PAGE_SIZE < PAGE_COUNT then
      let e := pt.entries (addr / PAGE_SIZE)
      if e.present && e.writable then
        let pt1 := pt.setEntry (addr / PAGE_SIZE) { e with accessed := true, dirty := true }
        match pt1.translate addr with
        | none => none
        | some pa =>
          if pa < PAGE_SIZE * PAGE_COUNT then
            some { pt1 with data := fun p => if p = pa then b else pt1.data p }
          else none
      else
        match trigger_page_fault interp pt addr with
        | none => none
        | some pt' => write interp fuel pt' addr b
    else none

end MockPageTable

/-- An interpretation that is never consulted; used for tables whose handler
slot is empty. -/
def deadInterp {H σ : Type} : HandlerInterp H σ := fun _ _ _ _ => none

/-- The fault handler of the repository's `page_fault` test: increment the
captured fault counter, then `pt.map(addr, addr)`. -/
def countingMapInterp : HandlerInterp Unit Nat :=
  fun _ count pt addr => (pt.map addr addr).map (fun pt' => (count + 1, pt'))

/-- A fault handler whose body performs `pt.read(addr)` on the table it was
handed — a nested faulting access.  The table a handler receives carries no
installed handler, so the nested read never consults any interpretation;
`deadInterp` records that. -/
def nestedReadInterp : HandlerInterp Unit Unit :=
  fun _ s pt addr => (pt.read deadInterp 1 addr).map (fun r => (s, r.2))

/-- A concrete table: page 0 ↦ frame 0 (writable), page 1 ↦ frame 0x1000
(writable), page 2 ↦ frame 0x1000 (read-only, accessed and dirty), all other
pages absent; zeroed backing store; no handler. -/
def demoPT : MockPageTable Unit Unit :=
  { entries := fun j =>
      if j = 0 then
        { target := 0, present := true, writable := true, accessed := false, dirty := false }
      else if j = 1 then
        { target := 4096, present := true, writable := true, accessed := false, dirty := false }
      else if j = 2 then
        { target := 4096, present := true, writable := false, accessed := true, dirty := true }
      else MockEntry.default,
    data := fun _ => 0,
    page_fault_handler := none }

/-- A concrete table with no page present and the counting map handler
installed with counter 0. -/
def demoFaultPT : MockPageTable Unit Nat :=
  { entries := fun _ => MockEntry.default,
    data := fun _ => 0,
    page_fault_handler := some ((), 0) }

/-- A concrete table with no page present and the nested-read handler
installed. -/
def demoNestedPT : MockPageTable Unit Unit :=
  { entries := fun _ => MockEntry.default,
    data := fun _ => 0,
    page_fault_handler := some ((), ()) }

/-- The state reached from a fresh table by `map(0, 0)`, `write(0, 1)`,
`unmap(0)`: page 0 is absent but its entry retains the accessed and dirty
bits set by the write. -/
def c4state : Option (MockPageTable Unit Unit) :=
  (((MockPageTable.new (fun _ => 0)).map 0 0).bind
      (fun t => t.write deadInterp 1 0 1)).bind
    (fun t => t.unmap 0)

namespace MockPageTable

variable {H σ : Type}

@[simp] lemma setEntry_entries_self (pt : MockPageTable H σ) (i : Nat) (e : MockEntry) :
    (pt.setEntry i e).entries i = e := by
  simp [setEntry]

lemma setEntry_entries_ne (pt : MockPageTable H σ) (i j : Nat) (e : MockEntry)
    (h : j ≠ i) : (pt.setEntry i e).entries j = pt.entries j := by
  simp [setEntry, h]

@[simp] lemma setEntry_data (pt : MockPageTable H σ) (i : Nat) (e : MockEntry) :
    (pt.setEntry i e).data = pt.data := rfl

@[simp] lemma setEntry_handler (pt : MockPageTable H σ) (i : Nat) (e : MockEntry) :
    (pt.setEntry i e).page_fault_handler = pt.page_fault_handler := rfl

/-- A present page is served by `read` without any fault dispatch: the byte at
the translated physical address is returned and only the accessed bit of the
page's entry changes. -/
lemma read_no_fault (interp : HandlerInterp H σ) (fuel : Nat) (pt : MockPageTable H σ)
    (addr : Nat)
    (hidx : addr / PAGE_SIZE < PAGE_COUNT)
    (hp : (pt.entries (addr / PAGE_SIZE)).present = true)
    (hpa : Nat.lor ((pt.entries (addr / PAGE_SIZE)).target / PAGE_SIZE * PAGE_SIZE)
        (addr % PAGE_SIZE) < PAGE_SIZE * PAGE_COUNT) :
    read interp (fuel + 1) pt addr =
      some (pt.data (Nat.lor ((pt.entries (addr / PAGE_SIZE)).target / PAGE_SIZE * PAGE_SIZE)
              (addr % PAGE_SIZE)),
            pt.setEntry (addr / PAGE_SIZE)
              { pt.entries (addr / PAGE_SIZE) with accessed := true }) := by
  simp [read, translate, hidx, hp, hpa]

/-- A present and writable page is served by `write` without any fault
dispatch: the byte is stored at the translated physical address and only the
accessed and dirty bits of the page's entry change. -/
lemma write_no_fault (interp : HandlerInterp H σ) (fuel : Nat) (pt : MockPageTable H σ)
    (addr b : Nat)
    (hidx : addr / PAGE_SIZE < PAGE_COUNT)
    (hp : (pt.entries (addr / PAGE_SIZE)).present = true)
    (hw : (pt.entries (addr / PAGE_SIZE)).writable = true)
    (hpa : Nat.lor ((pt.entries (addr / PAGE_SIZE)).target / PAGE_SIZE * PAGE_SIZE)
        (addr % PAGE_SIZE) < PAGE_SIZE * PAGE_COUNT) :
    write interp (fuel + 1) pt addr b =
      some { pt.setEntry (addr / PAGE_SIZE)
               { pt.entries (addr / PAGE_SIZE) with accessed := true, dirty := true } with
             data := fun p =>
               if p = Nat.lor ((pt.entries (addr / PAGE_SIZE)).target / PAGE_SIZE * PAGE_SIZE)
                   (addr % PAGE_SIZE)
               then b else pt.data p } := by
  simp [write, translate, hidx, hp, hw, hpa]

/-- With no handler installed, dispatching a fault panics. -/
lemma trigger_none (interp : HandlerInterp H σ) (pt : MockPageTable H σ) (addr : Nat)
    (h : pt.page_fault_handler = none) :
    trigger_page_fault interp pt addr = none := by
  simp [trigger_page_fault, h]

/-- A read that faults with no handler installed panics, whatever the fuel. -/
lemma read_none_of_no_handler (interp : HandlerInterp H σ) (fuel : Nat)
    (pt : MockPageTable H σ) (addr : Nat)
    (hh : pt.page_fault_handler = none)
    (hp : (pt.entries (addr / PAGE_SIZE)).present = false) :
    read interp fuel pt addr = none := by
  cases fuel with
  | zero => simp [read]
  | succ n => simp [read, hp, trigger_none interp pt addr hh]

/-- A write that faults with no handler installed panics, whatever the fuel. -/
lemma write_none_of_no_handler (interp : HandlerInterp H σ) (fuel : Nat)
    (pt : MockPageTable H σ) (addr b : Nat)
    (hh : pt.page_fault_handler = none)
    (hpw : ((pt.entries (addr / PAGE_SIZE)).present &&
        (pt.entries (addr / PAGE_SIZE)).writable) = false) :
    write interp fuel pt addr b = none := by
  cases fuel with
  | zero => simp [write]
  | succ n => simp [write, hpw, trigger_none interp pt addr hh]

end MockPageTable

/-- C1: Write-then-read round trip: for every in-range virtual address whose
entry is present and writable, with the translated physical address inside the
backing store, and for every byte B, `write(A, B)` followed immediately by
`read(A)` returns B. -/
theorem C1_write_then_read_roundtrip {H σ : Type} (interp : HandlerInterp H σ)
    (pt : MockPageTable H σ) (addr B : Nat)
    (hidx : addr / PAGE_SIZE < PAGE_COUNT)
    (hp : (pt.entries (addr / PAGE_SIZE)).present = true)
    (hw : (pt.entries (addr / PAGE_SIZE)).writable = true)
    (hpa : Nat.lor ((pt.entries (addr / PAGE_SIZE)).target / PAGE_SIZE * PAGE_SIZE)
        (addr % PAGE_SIZE) < PAGE_SIZE * PAGE_COUNT)
    (_hB : B < 256) :
    (pt.write interp 1 addr B).bind
      (fun pt' => (pt'.read interp 1 addr).map Prod.fst) = some B := by
  rw [show (1 : Nat) = 0 + 1 from rfl,
    MockPageTable.write_no_fault interp 0 pt addr B hidx hp hw hpa]
  rw [Option.some_bind]
  rw [MockPageTable.read_no_fault interp 0 _ addr hidx (by simpa using hp) (by simpa using hpa)]
  simp

/-- C2: map postcondition: for every in-range virtual address whose page is
not present and every physical address T, immediately after `map(A, T)` the
entry for A is present, writable, and targets T with the low-order page-offset
bits masked off. -/
theorem C2_map_postcondition {H σ : Type} (pt : MockPageTable H σ) (addr T : Nat)
    (hidx : addr / PAGE_SIZE < PAGE_COUNT)
    (hnp : (pt.entries (addr / PAGE_SIZE)).present = false) :
    ∃ pt' en, pt.map addr T = some pt' ∧ pt'.get_entry addr = some en ∧
      en.present = true ∧ en.writable = true ∧ en.target = T / PAGE_SIZE * PAGE_SIZE := by
  refine ⟨pt.setEntry (addr / PAGE_SIZE)
      { pt.entries (addr / PAGE_SIZE) with
        present := true, writable := true, target := T / PAGE_SIZE * PAGE_SIZE },
    { pt.entries (addr / PAGE_SIZE) with
      present := true, writable := true, target := T / PAGE_SIZE * PAGE_SIZE },
    ?_, ?_, rfl, rfl, rfl⟩
  · simp [MockPageTable.map, hidx, hnp]
  · simp [MockPageTable.get_entry, hidx]

/-- C5: Accessed/dirty setting on access: on a present page, `read` sets the
accessed bit and leaves the dirty bit unchanged; on a present and writable
page, `write` sets both the accessed and the dirty bit. -/
theorem C5_accessed_dirty_on_access {H σ : Type} (interp : HandlerInterp H σ)
    (pt : MockPageTable H σ) (addr B : Nat)
    (hidx : addr / PAGE_SIZE < PAGE_COUNT)
    (hp : (pt.entries (addr / PAGE_SIZE)).present = true)
    (hpa : Nat.lor ((pt.entries (addr / PAGE_SIZE)).target / PAGE_SIZE * PAGE_SIZE)
        (addr % PAGE_SIZE) < PAGE_SIZE * PAGE_COUNT) :
    (∃ b pt', pt.read interp 1 addr = some (b, pt') ∧
       (pt'.entries (addr / PAGE_SIZE)).accessed = true ∧
       (pt'.entries (addr / PAGE_SIZE)).dirty = (pt.entries (addr / PAGE_SIZE)).dirty) ∧
    ((pt.entries (addr / PAGE_SIZE)).writable = true →
      ∃ pt', pt.write interp 1 addr B = some pt' ∧
        (pt'.entries (addr / PAGE_SIZE)).accessed = true ∧
        (pt'.entries (addr / PAGE_SIZE)).dirty = true) := by
  constructor
  · refine ⟨_, _, MockPageTable.read_no_fault interp 0 pt addr hidx hp hpa, ?_, ?_⟩ <;> simp
  · intro hw
    refine ⟨_, MockPageTable.write_no_fault interp 0 pt addr B hidx hp hw hpa, ?_, ?_⟩ <;> simp

/-- C6: unmap frame effect: on a present page, `unmap` clears only the present
bit — target, writable, accessed and dirty of that entry, every other entry,
the backing store and the handler are unchanged. -/
theorem C6_unmap_only_clears_present {H σ : Type} (pt : MockPageTable H σ) (addr : Nat)
    (hidx : addr / PAGE_SIZE < PAGE_COUNT)
    (hp : (pt.entries (addr / PAGE_SIZE)).present = true) :
    ∃ pt', pt.unmap addr = some pt' ∧
      (pt'.entries (addr / PAGE_SIZE)).present = false ∧
      (pt'.entries (addr / PAGE_SIZE)).target = (pt.entries (addr / PAGE_SIZE)).target ∧
      (pt'.entries (addr / PAGE_SIZE)).writable = (pt.entries (addr / PAGE_SIZE)).writable ∧
      (pt'.entries (addr / PAGE_SIZE)).accessed = (pt.entries (addr / PAGE_SIZE)).accessed ∧
      (pt'.entries (addr / PAGE_SIZE)).dirty = (pt.entries (addr / PAGE_SIZE)).dirty ∧
      (∀ j, j ≠ addr / PAGE_SIZE → pt'.entries j = pt.entries j) ∧
      pt'.data = pt.data ∧
      pt'.page_fault_handler = pt.page_fault_handler := by
  refine ⟨pt.setEntry (addr / PAGE_SIZE) { pt.entries (addr / PAGE_SIZE) with present := false },
    ?_, ?_, ?_, ?_, ?_, ?_, ?_, rfl, rfl⟩
  · simp [MockPageTable.unmap, hidx, hp]
  · simp
  · simp
  · simp
  · simp
  · simp
  · intro j hj
    exact MockPageTable.setEntry_entries_ne pt (addr / PAGE_SIZE) j _ hj

/-- C7: Fatal invariant violations: for every in-range virtual address,
`map` on an already-present page panics, and `unmap` on a not-present page
panics; neither silently proceeds. -/
theorem C7_fatal_invariant_violations {H σ : Type} (pt : MockPageTable H σ)
    (addr T : Nat) (hidx : addr / PAGE_SIZE < PAGE_COUNT) :
    ((pt.entries (addr / PAGE_SIZE)).present = true → pt.map addr T = none) ∧
    ((pt.entries (addr / PAGE_SIZE)).present = false → pt.unmap addr = none) := by
  constructor
  · intro hp
    simp [MockPageTable.map, hidx, hp]
  · intro hnp
    simp [MockPageTable.unmap, hidx, hnp]

/-- C8: Fault suppression: an access to a present (and, for a write, writable)
page never consults the installed fault handler: the result is the same for
every handler interpretation and any fuel, and the handler slot — code and
captured state, hence any invocation counter — is unchanged. -/
theorem C8_fault_suppression {H σ : Type} (pt : MockPageTable H σ) (addr B : Nat)
    (hidx : addr / PAGE_SIZE < PAGE_COUNT)
    (hp : (pt.entries (addr / PAGE_SIZE)).present = true)
    (hpa : Nat.lor ((pt.entries (addr / PAGE_SIZE)).target / PAGE_SIZE * PAGE_SIZE)
        (addr % PAGE_SIZE) < PAGE_SIZE * PAGE_COUNT) :
    (∃ b pt', (∀ (interp : HandlerInterp H σ) (fuel : Nat),
        pt.read interp (fuel + 1) addr = some (b, pt')) ∧
      pt'.page_fault_handler = pt.page_fault_handler) ∧
    ((pt.entries (addr / PAGE_SIZE)).writable = true →
      ∃ pt', (∀ (interp : HandlerInterp H σ) (fuel : Nat),
          pt.write interp (fuel + 1) addr B = some pt') ∧
        pt'.page_fault_handler = pt.page_fault_handler) := by
  constructor
  · exact ⟨_, _,
      fun interp fuel => MockPageTable.read_no_fault interp fuel pt addr hidx hp hpa, rfl⟩
  · intro hw
    exact ⟨_,
      fun interp fuel => MockPageTable.write_no_fault interp fuel pt addr B hidx hp hw hpa, rfl⟩

/-- C9: Aliasing via shared frame: when two distinct in-range virtual pages
map to the same physical frame base, a write through the first page at some
in-page offset is observed by a read through the second page at the same
offset; the physical address is composed as (target masked to the page
boundary) or-ed with the in-page offset. -/
theorem C9_alias_shared_frame {H σ : Type} (interp : HandlerInterp H σ)
    (pt : MockPageTable H σ) (i1 i2 o B : Nat)
    (h1 : i1 < PAGE_COUNT) (h2 : i2 < PAGE_COUNT) (hne : i2 ≠ i1) (ho : o < PAGE_SIZE)
    (hp1 : (pt.entries i1).present = true) (hw1 : (pt.entries i1).writable = true)
    (hp2 : (pt.entries i2).present = true)
    (htgt : (pt.entries i1).target / PAGE_SIZE = (pt.entries i2).target / PAGE_SIZE)
    (hpa : Nat.lor ((pt.entries i1).target / PAGE_SIZE * PAGE_SIZE) o
        < PAGE_SIZE * PAGE_COUNT) :
    (pt.write interp 1 (i1 * PAGE_SIZE + o) B).bind
      (fun pt' => (pt'.read interp 1 (i2 * PAGE_SIZE + o)).map Prod.fst) = some B := by
  have hdiv1 : (i1 * PAGE_SIZE + o) / PAGE_SIZE = i1 := by
    simp only [PAGE_SIZE] at ho ⊢
    omega
  have hmod1 : (i1 * PAGE_SIZE + o) % PAGE_SIZE = o := by
    simp only [PAGE_SIZE] at ho ⊢
    omega
  have hdiv2 : (i2 * PAGE_SIZE + o) / PAGE_SIZE = i2 := by
    simp only [PAGE_SIZE] at ho ⊢
    omega
  have hmod2 : (i2 * PAGE_SIZE + o) % PAGE_SIZE = o := by
    simp only [PAGE_SIZE] at ho ⊢
    omega
  rw [show (1 : Nat) = 0 + 1 from rfl,
    MockPageTable.write_no_fault interp 0 pt (i1 * PAGE_SIZE + o) B
      (by rw [hdiv1]; exact h1) (by rw [hdiv1]; exact hp1) (by rw [hdiv1]; exact hw1)
      (by rw [hdiv1, hmod1]; exact hpa)]
  rw [Option.some_bind]
  rw [MockPageTable.read_no_fault interp 0 _ (i2 * PAGE_SIZE + o)
    (by rw [hdiv2]; exact h2)
    (by
      rw [hdiv2, hdiv1]
      rw [MockPageTable.setEntry_entries_ne _ _ _ _ hne]
      exact hp2)
    (by
      rw [hdiv2, hmod2, hdiv1]
      rw [MockPageTable.setEntry_entries_ne _ _ _ _ hne]
      rw [← htgt]
      exact hpa)]
  simp [hdiv1, hdiv2, hmod1, hmod2, MockPageTable.setEntry_entries_ne _ _ _ _ hne, ← htgt]

/-- C3: Fault triggering and repair: on a not-present in-range page, with the
counting handler that maps the faulting page to itself installed, a single
`read` — or `write` — invokes the handler exactly once (the captured counter
goes from c to c + 1), completes the access, and leaves the page present and
writable. -/
theorem C3_fault_repair (pt : MockPageTable Unit Nat) (addr c B : Nat)
    (hidx : addr / PAGE_SIZE < PAGE_COUNT)
    (hnp : (pt.entries (addr / PAGE_SIZE)).present = false)
    (hh : pt.page_fault_handler = some ((), c)) :
    (∃ b pt', pt.read countingMapInterp 2 addr = some (b, pt') ∧
      pt'.page_fault_handler = some ((), c + 1) ∧
      (pt'.entries (addr / PAGE_SIZE)).present = true ∧
      (pt'.entries (addr / PAGE_SIZE)).writable = true) ∧
    (∃ pt', pt.write countingMapInterp 2 addr B = some pt' ∧
      pt'.page_fault_handler = some ((), c + 1) ∧
      (pt'.entries (addr / PAGE_SIZE)).present = true ∧
      (pt'.entries (addr / PAGE_SIZE)).writable = true) := by
  have htrig : pt.trigger_page_fault countingMapInterp addr =
      some { ({ pt with page_fault_handler := none } : MockPageTable Unit Nat).setEntry
               (addr / PAGE_SIZE)
               { pt.entries (addr / PAGE_SIZE) with
                 present := true, writable := true,
                 target := addr / PAGE_SIZE * PAGE_SIZE } with
             page_fault_handler := some ((), c + 1) } := by
    simp [MockPageTable.trigger_page_fault, hh, countingMapInterp, MockPageTable.map,
      hidx, hnp]
  have htdiv : addr / PAGE_SIZE * PAGE_SIZE / PAGE_SIZE = addr / PAGE_SIZE := by
    simp [PAGE_SIZE]
  have hpa2 : Nat.lor (addr / PAGE_SIZE * PAGE_SIZE) (addr % PAGE_SIZE)
      < PAGE_SIZE * PAGE_COUNT := by
    have hb1 : addr / PAGE_SIZE * PAGE_SIZE < 2 ^ 16 := by
      simp only [PAGE_SIZE, PAGE_COUNT] at hidx ⊢
      omega
    have hb2 : addr % PAGE_SIZE < 2 ^ 16 := by
      simp only [PAGE_SIZE]
      omega
    have := Nat.or_lt_two_pow hb1 hb2
    simpa [PAGE_SIZE, PAGE_COUNT] using this
  constructor
  · rw [show (2 : Nat) = 1 + 1 from rfl]
    rw [MockPageTable.read]
    rw [if_pos hidx]
    rw [hnp]
    simp only [Bool.false_eq_true, if_false, htrig]
    rw [MockPageTable.read_no_fault countingMapInterp 0 _ addr hidx (by simp) (by
      simp only [MockPageTable.setEntry_entries_self]
      simpa [htdiv] using hpa2)]
    refine ⟨_, _, rfl, rfl, ?_, ?_⟩ <;> simp
  · rw [show (2 : Nat) = 1 + 1 from rfl]
    rw [MockPageTable.write]
    rw [if_pos hidx]
    simp only [hnp, Bool.false_and, Bool.false_eq_true, if_false, htrig]
    rw [MockPageTable.write_no_fault countingMapInterp 0 _ addr B hidx (by simp) (by simp) (by
      simp only [MockPageTable.setEntry_entries_self]
      simpa [htdiv] using hpa2)]
    refine ⟨_, rfl, ?_, ?_⟩ <;> simp

/-- C4 counterexample: from a fresh table, `map(0, 0)`, `write(0, 1)`,
`unmap(0)` reaches a state whose page 0 is not present but whose entry keeps
accessed and dirty set; remapping that page with `map(0, 0)` leaves
accessed() and dirty() true, contradicting the claim that a page mapped into
such a state has accessed() == false and dirty() == false. -/
theorem C4_counterexample :
    (c4state.map (fun t =>
      ((t.entries 0).present, (t.entries 0).accessed, (t.entries 0).dirty)))
      = some (false, true, true) ∧
    ((c4state.bind (fun t => t.map 0 0)).map (fun t =>
      ((t.entries 0).accessed, (t.entries 0).dirty))) = some (true, true) := by
  constructor
  · decide
  · decide

/-- C4 (amended): `map` leaves the accessed and dirty bits of the entry
unchanged; in particular, immediately after `map(A, T)` into a slot whose
accessed and dirty bits are clear — as in a fresh table — the entry has
accessed() == false and dirty() == false. -/
theorem C4_map_preserves_accessed_dirty {H σ : Type} (pt : MockPageTable H σ)
    (addr T : Nat)
    (hidx : addr / PAGE_SIZE < PAGE_COUNT)
    (hnp : (pt.entries (addr / PAGE_SIZE)).present = false) :
    ∃ pt', pt.map addr T = some pt' ∧
      (pt'.entries (addr / PAGE_SIZE)).accessed = (pt.entries (addr / PAGE_SIZE)).accessed ∧
      (pt'.entries (addr / PAGE_SIZE)).dirty = (pt.entries (addr / PAGE_SIZE)).dirty := by
  refine ⟨pt.setEntry (addr / PAGE_SIZE)
      { pt.entries (addr / PAGE_SIZE) with
        present := true, writable := true, target := T / PAGE_SIZE * PAGE_SIZE },
    ?_, ?_, ?_⟩
  · simp [MockPageTable.map, hidx, hnp]
  · simp
  · simp

/-- C10: Missing-handler fault is fatal, including nested faults: a faulting
read or write with no installed handler panics whatever the fuel; and because
`trigger_page_fault` removes the handler for the duration of its invocation,
a handler whose body performs a faulting read on the table it was handed
makes the whole access panic rather than dispatch recursively. -/
theorem C10_missing_handler_fatal {H σ : Type} :
    (∀ (interp : HandlerInterp H σ) (fuel : Nat) (pt : MockPageTable H σ) (addr : Nat),
       pt.page_fault_handler = none →
       (pt.entries (addr / PAGE_SIZE)).present = false →
       pt.read interp fuel addr = none) ∧
    (∀ (interp : HandlerInterp H σ) (fuel : Nat) (pt : MockPageTable H σ) (addr b : Nat),
       pt.page_fault_handler = none →
       ((pt.entries (addr / PAGE_SIZE)).present &&
         (pt.entries (addr / PAGE_SIZE)).writable) = false →
       pt.write interp fuel addr b = none) ∧
    (∀ (fuel : Nat) (pt : MockPageTable Unit Unit) (addr b : Nat),
       pt.page_fault_handler = some ((), ()) →
       (pt.entries (addr / PAGE_SIZE)).present = false →
       pt.write nestedReadInterp fuel addr b = none) := by
  refine ⟨?_, ?_, ?_⟩
  · intro interp fuel pt addr hh hnp
    exact MockPageTable.read_none_of_no_handler interp fuel pt addr hh hnp
  · intro interp fuel pt addr b hh hpw
    exact MockPageTable.write_none_of_no_handler interp fuel pt addr b hh hpw
  · intro fuel pt addr b hh hnp
    cases fuel with
    | zero => simp [MockPageTable.write]
    | succ n =>
      have hread : ({ pt with page_fault_handler := none } :
          MockPageTable Unit Unit).read deadInterp 1 addr = none :=
        MockPageTable.read_none_of_no_handler deadInterp 1 _ addr rfl hnp
      simp [MockPageTable.write, hnp, MockPageTable.trigger_page_fault, hh,
        nestedReadInterp, hread]

/-- Witness for C1: on the concrete table, writing byte 7 at virtual address 5
then reading it back yields 7. -/
theorem C1_witness :
    (5 / PAGE_SIZE < PAGE_COUNT ∧
     (demoPT.entries (5 / PAGE_SIZE)).present = true ∧
     (demoPT.entries (5 / PAGE_SIZE)).writable = true ∧
     Nat.lor ((demoPT.entries (5 / PAGE_SIZE)).target / PAGE_SIZE * PAGE_SIZE) (5 % PAGE_SIZE)
       < PAGE_SIZE * PAGE_COUNT ∧ 7 < 256) ∧
    (demoPT.write deadInterp 1 5 7).bind
      (fun pt' => (pt'.read deadInterp 1 5).map Prod.fst) = some 7 :=
  ⟨⟨by decide, by decide, by decide, by decide, by decide⟩,
   C1_write_then_read_roundtrip deadInterp demoPT 5 7 (by decide) (by decide) (by decide)
     (by decide) (by decide)⟩

/-- Witness for C2: on the concrete table, mapping the absent page at virtual
0x3000 to target 0x1234 yields a present, writable entry targeting 0x1000. -/
theorem C2_witness :
    (12288 / PAGE_SIZE < PAGE_COUNT ∧
     (demoPT.entries (12288 / PAGE_SIZE)).present = false) ∧
    (∃ pt' en, demoPT.map 12288 4660 = some pt' ∧ pt'.get_entry 12288 = some en ∧
      en.present = true ∧ en.writable = true ∧ en.target = 4660 / PAGE_SIZE * PAGE_SIZE) :=
  ⟨⟨by decide, by decide⟩,
   C2_map_postcondition demoPT 12288 4660 (by decide) (by decide)⟩

/-- Witness for C3: on the concrete faulting table, a write (and a read) to
unmapped virtual 0x1000 with the counting map handler installed bumps the
counter from 0 to 1, completes, and leaves the page present and writable. -/
theorem C3_witness :
    (4096 / PAGE_SIZE < PAGE_COUNT ∧
     (demoFaultPT.entries (4096 / PAGE_SIZE)).present = false ∧
     demoFaultPT.page_fault_handler = some ((), 0)) ∧
    ((∃ b pt', demoFaultPT.read countingMapInterp 2 4096 = some (b, pt') ∧
       pt'.page_fault_handler = some ((), 0 + 1) ∧
       (pt'.entries (4096 / PAGE_SIZE)).present = true ∧
       (pt'.entries (4096 / PAGE_SIZE)).writable = true) ∧
     (∃ pt', demoFaultPT.write countingMapInterp 2 4096 255 = some pt' ∧
       pt'.page_fault_handler = some ((), 0 + 1) ∧
       (pt'.entries (4096 / PAGE_SIZE)).present = true ∧
       (pt'.entries (4096 / PAGE_SIZE)).writable = true)) :=
  ⟨⟨by decide, by decide, by decide⟩,
   C3_fault_repair demoFaultPT 4096 0 255 (by decide) (by decide) (by decide)⟩

/-- Witness for C4 (amended): on the concrete table, mapping the absent page
at virtual 0x3000 leaves its accessed and dirty bits as they were. -/
theorem C4_witness :
    (12288 / PAGE_SIZE < PAGE_COUNT ∧
     (demoPT.entries (12288 / PAGE_SIZE)).present = false) ∧
    (∃ pt', demoPT.map 12288 4660 = some pt' ∧
      (pt'.entries (12288 / PAGE_SIZE)).accessed = (demoPT.entries (12288 / PAGE_SIZE)).accessed ∧
      (pt'.entries (12288 / PAGE_SIZE)).dirty = (demoPT.entries (12288 / PAGE_SIZE)).dirty) :=
  ⟨⟨by decide, by decide⟩,
   C4_map_preserves_accessed_dirty demoPT 12288 4660 (by decide) (by decide)⟩

/-- Witness for C5: on the concrete table at virtual 4097 (page 1, clean),
a read sets accessed and keeps dirty, and a write sets both. -/
theorem C5_witness :
    (4097 / PAGE_SIZE < PAGE_COUNT ∧
     (demoPT.entries (4097 / PAGE_SIZE)).present = true ∧
     Nat.lor ((demoPT.entries (4097 / PAGE_SIZE)).target / PAGE_SIZE * PAGE_SIZE)
       (4097 % PAGE_SIZE) < PAGE_SIZE * PAGE_COUNT ∧
     (demoPT.entries (4097 / PAGE_SIZE)).writable = true) ∧
    (∃ b pt', demoPT.read deadInterp 1 4097 = some (b, pt') ∧
       (pt'.entries (4097 / PAGE_SIZE)).accessed = true ∧
       (pt'.entries (4097 / PAGE_SIZE)).dirty = (demoPT.entries (4097 / PAGE_SIZE)).dirty) ∧
    (∃ pt', demoPT.write deadInterp 1 4097 9 = some pt' ∧
       (pt'.entries (4097 / PAGE_SIZE)).accessed = true ∧
       (pt'.entries (4097 / PAGE_SIZE)).dirty = true) :=
  ⟨⟨by decide, by decide, by decide, by decide⟩,
   (C5_accessed_dirty_on_access deadInterp demoPT 4097 9 (by decide) (by decide) (by decide)).1,
   (C5_accessed_dirty_on_access deadInterp demoPT 4097 9 (by decide) (by decide) (by decide)).2
     (by decide)⟩

/-- Witness for C6: on the concrete table, unmapping virtual 0x2005 (page 2,
present) clears only the present bit of entry 2 and changes nothing else. -/
theorem C6_witness :
    (8197 / PAGE_SIZE < PAGE_COUNT ∧
     (demoPT.entries (8197 / PAGE_SIZE)).present = true) ∧
    (∃ pt', demoPT.unmap 8197 = some pt' ∧
      (pt'.entries (8197 / PAGE_SIZE)).present = false ∧
      (pt'.entries (8197 / PAGE_SIZE)).target = (demoPT.entries (8197 / PAGE_SIZE)).target ∧
      (pt'.entries (8197 / PAGE_SIZE)).writable = (demoPT.entries (8197 / PAGE_SIZE)).writable ∧
      (pt'.entries (8197 / PAGE_SIZE)).accessed = (demoPT.entries (8197 / PAGE_SIZE)).accessed ∧
      (pt'.entries (8197 / PAGE_SIZE)).dirty = (demoPT.entries (8197 / PAGE_SIZE)).dirty ∧
      (∀ j, j ≠ 8197 / PAGE_SIZE → pt'.entries j = demoPT.entries j) ∧
      pt'.data = demoPT.data ∧
      pt'.page_fault_handler = demoPT.page_fault_handler) :=
  ⟨⟨by decide, by decide⟩,
   C6_unmap_only_clears_present demoPT 8197 (by decide) (by decide)⟩

/-- Witness for C7: on the concrete table, `map` on already-present page 0
panics and `unmap` on absent page 3 panics. -/
theorem C7_witness :
    (0 / PAGE_SIZE < PAGE_COUNT ∧ (demoPT.entries (0 / PAGE_SIZE)).present = true ∧
     demoPT.map 0 0 = none) ∧
    (12288 / PAGE_SIZE < PAGE_COUNT ∧ (demoPT.entries (12288 / PAGE_SIZE)).present = false ∧
     demoPT.unmap 12288 = none) :=
  ⟨⟨by decide, by decide,
    (C7_fatal_invariant_violations demoPT 0 0 (by decide)).1 (by decide)⟩,
   ⟨by decide, by decide,
    (C7_fatal_invariant_violations demoPT 12288 0 (by decide)).2 (by decide)⟩⟩

/-- Witness for C8: on the concrete table at virtual 4097 (present, writable),
read and write succeed with the same result for every interpretation and the
handler slot unchanged. -/
theorem C8_witness :
    (4097 / PAGE_SIZE < PAGE_COUNT ∧
     (demoPT.entries (4097 / PAGE_SIZE)).present = true ∧
     Nat.lor ((demoPT.entries (4097 / PAGE_SIZE)).target / PAGE_SIZE * PAGE_SIZE)
       (4097 % PAGE_SIZE) < PAGE_SIZE * PAGE_COUNT ∧
     (demoPT.entries (4097 / PAGE_SIZE)).writable = true) ∧
    (∃ b pt', (∀ (interp : HandlerInterp Unit Unit) (fuel : Nat),
        demoPT.read interp (fuel + 1) 4097 = some (b, pt')) ∧
      pt'.page_fault_handler = demoPT.page_fault_handler) ∧
    (∃ pt', (∀ (interp : HandlerInterp Unit Unit) (fuel : Nat),
        demoPT.write interp (fuel + 1) 4097 9 = some pt') ∧
      pt'.page_fault_handler = demoPT.page_fault_handler) :=
  ⟨⟨by decide, by decide, by decide, by decide⟩,
   (C8_fault_suppression demoPT 4097 9 (by decide) (by decide) (by decide)).1,
   (C8_fault_suppression demoPT 4097 9 (by decide) (by decide) (by decide)).2 (by decide)⟩

/-- Witness for C9: on the concrete table, pages 1 and 2 share frame 0x1000;
writing 42 through page 1 at offset 3 is read back through page 2 at offset 3. -/
theorem C9_witness :
    (1 < PAGE_COUNT ∧ 2 < PAGE_COUNT ∧ (2 : Nat) ≠ 1 ∧ 3 < PAGE_SIZE ∧
     (demoPT.entries 1).present = true ∧ (demoPT.entries 1).writable = true ∧
     (demoPT.entries 2).present = true ∧
     (demoPT.entries 1).target / PAGE_SIZE = (demoPT.entries 2).target / PAGE_SIZE ∧
     Nat.lor ((demoPT.entries 1).target / PAGE_SIZE * PAGE_SIZE) 3 < PAGE_SIZE * PAGE_COUNT) ∧
    (demoPT.write deadInterp 1 (1 * PAGE_SIZE + 3) 42).bind
      (fun pt' => (pt'.read deadInterp 1 (2 * PAGE_SIZE + 3)).map Prod.fst) = some 42 :=
  ⟨⟨by decide, by decide, by decide, by decide, by decide, by decide, by decide, by decide,
    by decide⟩,
   C9_alias_shared_frame deadInterp demoPT 1 2 3 42 (by decide) (by decide) (by decide)
     (by decide) (by decide) (by decide) (by decide) (by decide) (by decide)⟩

/-- Witness for C10: on the concrete tables, a faulting read and a faulting
write with no handler panic, and a write whose handler performs a nested
faulting read panics as well. -/
theorem C10_witness :
    (demoPT.page_fault_handler = none ∧
     (demoPT.entries (12288 / PAGE_SIZE)).present = false ∧
     demoPT.read deadInterp 3 12288 = none) ∧
    (((demoPT.entries (8192 / PAGE_SIZE)).present &&
       (demoPT.entries (8192 / PAGE_SIZE)).writable) = false ∧
     demoPT.write deadInterp 3 8192 5 = none) ∧
    (demoNestedPT.page_fault_handler = some ((), ()) ∧
     (demoNestedPT.entries (4096 / PAGE_SIZE)).present = false ∧
     demoNestedPT.write nestedReadInterp 3 4096 5 = none) :=
  ⟨⟨by decide, by decide,
    (C10_missing_handler_fatal (H := Unit) (σ := Unit)).1 deadInterp 3 demoPT 12288
      (by decide) (by decide)⟩,
   ⟨by decide,
    (C10_missing_handler_fatal (H := Unit) (σ := Unit)).2.1 deadInterp 3 demoPT 8192 5
      (by decide) (by decide)⟩,
   ⟨by decide, by decide,
    (C10_missing_handler_fatal (H := Unit) (σ := Unit)).2.2 3 demoNestedPT 4096 5
      (by decide) (by decide)⟩⟩
